import Mathlib

/-!
# Baymax-Chatbot: login page script (`login.js`)

A shallow embedding of the login/registration page script: the two toggle
click handlers, the two form submit handlers, `completeLogin` and the
`load` handler, over an explicit page state (class list of the container,
the two error slots, the form fields, `localStorage`, the assignments to
`window.location.href`, and the console).

JavaScript values that reach the script come from `response.json()`, so the
value domain is the JSON values plus `undefined` (written `none`).

A submit handler is followed from its event to the end of its continuation;
what its two `await`s deliver (`fetch` and `response.json()`) is an input, a
`FetchOutcome`.  `localStorage` is a key-value list together with a flag that
says whether the store refuses writes (it is full or disabled), in which case
`setItem` throws.
-/

namespace LoginJs

/-! ## JavaScript values -/

/-- A parsed JSON number is an IEEE double.  The script never does arithmetic
on one; it only observes whether it is falsy (`0`, `-0`), its `ToString` text
and its `JSON.stringify` text (they differ for an infinity, which
`JSON.parse` yields for a literal such as `1e999`).  The three observations
are carried as fields. -/
structure JNumber where
  falsy : Bool
  text : String
  json : String
deriving DecidableEq, Repr

/-- The values `response.json()` can resolve to.  An object is the list of its
own properties in enumeration order. -/
inductive JVal where
  | null : JVal
  | bool (b : Bool) : JVal
  | num (n : JNumber) : JVal
  | str (s : String) : JVal
  | arr (xs : List JVal) : JVal
  | obj (ps : List (String × JVal)) : JVal
deriving Repr

/-- Own-property test on the property list of an object. -/
def hasOwn (k : String) : List (String × JVal) → Bool
  | [] => false
  | (k', _) :: ps => k' == k || hasOwn k ps

/-- Own-property read on the property list of an object. -/
def getOwn (k : String) : List (String × JVal) → Option JVal
  | [] => none
  | (k', v) :: ps => if k' == k then some v else getOwn k ps

/-- The boolean coercion used by `&&`, `||` and `if` (`ToBoolean`); `none` is
`undefined`. -/
def truthy : Option JVal → Bool
  | none => false
  | some .null => false
  | some (.bool b) => b
  | some (.num n) => !n.falsy
  | some (.str s) => s != ""
  | some (.arr _) => true
  | some (.obj _) => true

/-- Joins already converted array elements with `sep`, as `Array.prototype.join`. -/
def joinWith (sep : String) : List String → String
  | [] => ""
  | [s] => s
  | s :: t :: rest => s ++ sep ++ joinWith sep (t :: rest)

mutual
/-- `ToString` on a JSON value; `none` is a thrown `TypeError`.  An object
converts through `toString` then `valueOf`: an own `toString` property (never
callable in parsed JSON) hides `Object.prototype.toString`, `valueOf` gives
back the object, and the conversion throws; without it the result is
`[object Object]`.  An array converts through `join`. -/
def toStringJS : JVal → Option String
  | .null => some "null"
  | .bool b => some (if b then "true" else "false")
  | .num n => some n.text
  | .str s => some s
  | .arr xs => (joinElems xs).map (joinWith ",")
  | .obj ps => if hasOwn "toString" ps then none else some "[object Object]"
/-- The element conversions of `Array.prototype.join`, left to right: `null`
gives the empty string, every other element its `ToString`. -/
def joinElems : List JVal → Option (List String)
  | [] => some []
  | x :: xs =>
    match (match x with
           | .null => some ""
           | y => toStringJS y) with
    | none => none
    | some s =>
      match joinElems xs with
      | none => none
      | some ss => some (s :: ss)
end

/-- `ToString` on a value that may be `undefined`. -/
def toStringOpt : Option JVal → Option String
  | none => some "undefined"
  | some v => toStringJS v

/-- Lower-case hexadecimal digit. -/
def hexDigit (n : Nat) : Char :=
  if n < 10 then Char.ofNat (48 + n) else Char.ofNat (87 + n)

/-- One character of `QuoteJSONString`. -/
def quoteChar (c : Char) : List Char :=
  if c = '"' then ['\\', '"']
  else if c = '\\' then ['\\', '\\']
  else if c.toNat = 8 then ['\\', 'b']
  else if c.toNat = 12 then ['\\', 'f']
  else if c.toNat = 10 then ['\\', 'n']
  else if c.toNat = 13 then ['\\', 'r']
  else if c.toNat = 9 then ['\\', 't']
  else if c.toNat < 32 then
    ['\\', 'u', '0', '0', hexDigit (c.toNat / 16), hexDigit (c.toNat % 16)]
  else [c]

/-- `QuoteJSONString`: the JSON text of a string. -/
def quoteJSON (s : String) : String :=
  "\"" ++ String.mk (s.toList.flatMap quoteChar) ++ "\""

mutual
/-- `JSON.stringify` on a JSON value (no `toJSON` method is callable in parsed
JSON, no replacer, no indentation). -/
def stringify : JVal → String
  | .null => "null"
  | .bool b => if b then "true" else "false"
  | .num n => n.json
  | .str s => quoteJSON s
  | .arr xs => "[" ++ joinWith "," (stringifyElems xs) ++ "]"
  | .obj ps => "\x7b" ++ joinWith "," (stringifyProps ps) ++ "\x7d"
/-- The element texts of an array. -/
def stringifyElems : List JVal → List String
  | [] => []
  | x :: xs => stringify x :: stringifyElems xs
/-- The member texts of an object. -/
def stringifyProps : List (String × JVal) → List String
  | [] => []
  | (k, v) :: ps => (quoteJSON k ++ ":" ++ stringify v) :: stringifyProps ps
end

/-- The member texts of an object literal whose property values may be
`undefined`: `JSON.stringify` leaves such a property out. -/
def literalProps : List (String × Option JVal) → List String
  | [] => []
  | (_, none) :: ps => literalProps ps
  | (k, some v) :: ps => (quoteJSON k ++ ":" ++ stringify v) :: literalProps ps

/-- `JSON.stringify` on an object literal `{ k1: v1, ... }`. -/
def stringifyLiteral (ps : List (String × Option JVal)) : String :=
  "\x7b" ++ joinWith "," (literalProps ps) ++ "\x7d"

/-- The property read `v.k` for the keys the script reads (`success`,
`message`, `username`, `isAdmin`), none of which a built-in prototype
defines.  The outer `none` is the `TypeError` of reading a property of
`null`; the inner `none` is `undefined`. -/
def getField (v : JVal) (k : String) : Option (Option JVal) :=
  match v with
  | .null => none
  | .obj ps => some (getOwn k ps)
  | _ => some none

/-- `a || b` with a literal right operand. -/
def orElse (a : Option JVal) (b : String) : JVal :=
  match a with
  | some v => if truthy (some v) then v else .str b
  | none => .str b

/-- `String.prototype.endsWith`. -/
def endsWith (s suffix : String) : Bool :=
  suffix.toList.isSuffixOf s.toList

/-! ## Page state -/

/-- A line written to the console: `console.log` of a string, or
`console.error` of a value. -/
inductive ConsoleEntry where
  | log (text : String) : ConsoleEntry
  | error (message : JVal) : ConsoleEntry
deriving Repr

/-- What the script reads and writes: the class list of `.container`, the text
of the two error elements, the values of the five input fields,
`localStorage` (its entries, and whether the store refuses writes because it
is full or disabled), `window.location.pathname`, the values assigned to
`window.location.href` (oldest first) and the console output (oldest
first). -/
structure Page where
  classList : List String
  registerErrorMsg : String
  loginErrorMsg : String
  registerUsername : String
  registerEmail : String
  registerPassword : String
  loginEmail : String
  loginPassword : String
  localStorage : List (String × String)
  storeRefuses : Bool
  pathname : String
  hrefs : List String
  console : List ConsoleEntry
deriving Repr

/-- The two error elements, `registerErrorMsg` and `loginErrorMsg`. -/
inductive Slot where
  | registerErrorMsg : Slot
  | loginErrorMsg : Slot
deriving DecidableEq, Repr

/-- The `textContent` of an error element. -/
def Slot.text (el : Slot) (s : Page) : String :=
  match el with
  | .registerErrorMsg => s.registerErrorMsg
  | .loginErrorMsg => s.loginErrorMsg

/-- Assignment of a string to the `textContent` of an error element. -/
def Slot.setText (el : Slot) (t : String) (s : Page) : Page :=
  match el with
  | .registerErrorMsg => { s with registerErrorMsg := t }
  | .loginErrorMsg => { s with loginErrorMsg := t }

/-- The conversion the `textContent` setter applies to the assigned value
(a nullable `DOMString`): `null` is the empty text, anything else goes through
`ToString`, which may throw. -/
def textContentArg : JVal → Option String
  | .null => some ""
  | v => toStringJS v

/-- `localStorage.getItem`; `none` is `null`. -/
def getItem (k : String) : List (String × String) → Option String
  | [] => none
  | (k', v) :: rest => if k' == k then some v else getItem k rest

/-- The entries of the store after an accepted write: the entry of an existing
key is overwritten, a new key is appended. -/
def putItem (k v : String) : List (String × String) → List (String × String)
  | [] => [(k, v)]
  | (k', v') :: rest => if k' == k then (k', v) :: rest else (k', v') :: putItem k v rest

/-- `classList.add`: a token list holds a token at most once. -/
def classListAdd (c : String) (l : List String) : List String :=
  if l.contains c then l else l ++ [c]

/-- `classList.remove`. -/
def classListRemove (c : String) (l : List String) : List String :=
  l.filter (fun x => x != c)

/-- How a piece of script ends: normally, or by a thrown exception (for an
`async` handler: a rejected promise), in both cases with the page as the
script left it.  The thrown value is not kept: no `catch` block of the script
looks at it. -/
inductive Completion where
  | normal (s : Page) : Completion
  | thrown (s : Page) : Completion
deriving Repr

/-- The page a piece of script left behind. -/
def Completion.state : Completion → Page
  | .normal s => s
  | .thrown s => s

/-- Sequencing: the rest of a block runs only after a normal completion. -/
def Completion.andThen (c : Completion) (f : Page → Completion) : Completion :=
  match c with
  | .normal s => f s
  | .thrown s => .thrown s

/-- `localStorage.setItem`: a store that refuses the write (full or disabled)
throws `QuotaExceededError` and keeps its entries; otherwise the entry is
written. -/
def setItem (k v : String) (s : Page) : Completion :=
  if s.storeRefuses then .thrown s
  else .normal { s with localStorage := putItem k v s.localStorage }

/-! ## The script -/

/-- `displayError(element, message)`: the `textContent` assignment (which
converts `message`, and throws before anything is changed when the conversion
throws), then `console.error(message)`. -/
def displayError (element : Slot) (message : JVal) (s : Page) : Completion :=
  match textContentArg message with
  | none => .thrown s
  | some t =>
    let s1 := element.setText t s
    .normal { s1 with console := s1.console ++ [ConsoleEntry.error message] }

/-- `clearError(element)`. -/
def clearError (element : Slot) (s : Page) : Page :=
  element.setText "" s

/-- `completeLogin(username, isAdmin)`: the log line (whose template literal
converts both arguments to strings, and may throw), the `localStorage` write
(which throws when the store refuses it), the assignment to
`window.location.href`. -/
def completeLogin (username isAdmin : Option JVal) (s : Page) : Completion :=
  match toStringOpt username with
  | none => .thrown s
  | some u =>
    match toStringOpt isAdmin with
    | none => .thrown s
    | some a =>
      let line := "Login successful for user: " ++ u ++ ". Admin: " ++ a
      let s1 := { s with console := s.console ++ [ConsoleEntry.log line] }
      let record := stringifyLiteral [("username", username), ("isAdmin", isAdmin)]
      (setItem "currentUser" record s1).andThen
        fun s2 => .normal { s2 with hrefs := s2.hrefs ++ ["chatindex.html"] }

/-- The click handler of `registerBtn`. -/
def registerClick (s : Page) : Page :=
  clearError .loginErrorMsg { s with classList := classListAdd "active" s.classList }

/-- The click handler of `loginBtn`. -/
def loginClick (s : Page) : Page :=
  clearError .registerErrorMsg { s with classList := classListRemove "active" s.classList }

/-- The arguments of a `fetch` call. -/
structure Request where
  url : String
  method : String
  contentType : String
  body : String
deriving DecidableEq, Repr

/-- What the two `await`s of a submit handler can deliver: `fetch` rejects, or
it resolves to a response with a status, whose `json()` either rejects
(`body = none`) or resolves to a JSON value. -/
inductive FetchOutcome where
  | rejected : FetchOutcome
  | response (status : Nat) (body : Option JVal) : FetchOutcome
deriving Repr

/-- The network and the server, as seen from the page. -/
abbrev Backend := Request → FetchOutcome

/-- `response.ok`. -/
def isOk (status : Nat) : Bool :=
  decide (200 ≤ status) && decide (status ≤ 299)

/-- The request the register handler sends, from the field values read at
submit time. -/
def registerRequest (s : Page) : Request :=
  { url := "http://localhost:5000/register"
    method := "POST"
    contentType := "application/json"
    body := stringifyLiteral [("username", some (.str s.registerUsername)),
      ("email", some (.str s.registerEmail)), ("password", some (.str s.registerPassword))] }

/-- The request the login handler sends. -/
def loginRequest (s : Page) : Request :=
  { url := "http://localhost:5000/login"
    method := "POST"
    contentType := "application/json"
    body := stringifyLiteral [("email", some (.str s.loginEmail)),
      ("password", some (.str s.loginPassword))] }

/-- The `else` branch of the register handler. -/
def registerFailure (result : JVal) (s : Page) : Completion :=
  match getField result "message" with
  | none => .thrown s
  | some m => displayError .registerErrorMsg (orElse m "Registration failed.") s

/-- The `then` branch of the register handler. -/
def registerSuccess (s : Page) : Completion :=
  (displayError .registerErrorMsg (.str "Registration successful! Please log in.") s).andThen
    fun s1 => .normal (clearError .loginErrorMsg
      { s1 with classList := classListRemove "active" s1.classList })

/-- The `try` block of the register handler, from the point where `fetch` has
settled.  `response.ok && result.success` reads `result.success` only when
`response.ok` holds. -/
def registerTry (outcome : FetchOutcome) (s : Page) : Completion :=
  match outcome with
  | .rejected => .thrown s
  | .response _ none => .thrown s
  | .response status (some result) =>
    if isOk status then
      match getField result "success" with
      | none => .thrown s
      | some flag => if truthy flag then registerSuccess s else registerFailure result s
    else registerFailure result s

/-- The register handler after `fetch` has settled: the `try` block and the
`catch` block. -/
def registerResume (outcome : FetchOutcome) (s : Page) : Completion :=
  match registerTry outcome s with
  | .normal s1 => .normal s1
  | .thrown s1 =>
    displayError .registerErrorMsg (.str "Network error: Could not reach the server.") s1

/-- The submit handler of `registerForm`. -/
def registerSubmit (backend : Backend) (s : Page) : Completion :=
  let s1 := clearError .registerErrorMsg s
  registerResume (backend (registerRequest s1)) s1

/-- The `else` branch of the login handler. -/
def loginFailure (result : JVal) (s : Page) : Completion :=
  match getField result "message" with
  | none => .thrown s
  | some m => displayError .loginErrorMsg (orElse m "Invalid email or password.") s

/-- The `then` branch of the login handler. -/
def loginSuccess (result : JVal) (s : Page) : Completion :=
  match getField result "username" with
  | none => .thrown s
  | some username =>
    match getField result "isAdmin" with
    | none => .thrown s
    | some isAdmin => completeLogin username isAdmin s

/-- The `try` block of the login handler, from the point where `fetch` has
settled. -/
def loginTry (outcome : FetchOutcome) (s : Page) : Completion :=
  match outcome with
  | .rejected => .thrown s
  | .response _ none => .thrown s
  | .response status (some result) =>
    if isOk status then
      match getField result "success" with
      | none => .thrown s
      | some flag => if truthy flag then loginSuccess result s else loginFailure result s
    else loginFailure result s

/-- The login handler after `fetch` has settled. -/
def loginResume (outcome : FetchOutcome) (s : Page) : Completion :=
  match loginTry outcome s with
  | .normal s1 => .normal s1
  | .thrown s1 =>
    displayError .loginErrorMsg (.str "Network error: Could not reach the server.") s1

/-- The submit handler of `loginForm`. -/
def loginSubmit (backend : Backend) (s : Page) : Completion :=
  let s1 := clearError .loginErrorMsg s
  loginResume (backend (loginRequest s1)) s1

/-- The `load` handler of `window`. -/
def windowLoad (s : Page) : Page :=
  let loggedInUser := getItem "currentUser" s.localStorage
  if truthy (loggedInUser.map .str) && endsWith s.pathname "login.html" then
    { s with
      console := s.console ++ [ConsoleEntry.log "User found in storage. Redirecting to chat..."]
      hrefs := s.hrefs ++ ["chatindex.html"] }
  else s

/-! ## Vocabulary of the properties -/

/-- The two forms of the page. -/
inductive Form where
  | register : Form
  | login : Form
deriving DecidableEq, Repr

/-- The error element a form reports into. -/
def Form.slot : Form → Slot
  | .register => .registerErrorMsg
  | .login => .loginErrorMsg

/-- The message a form shows for a failure that carries no message. -/
def Form.fallback : Form → String
  | .register => "Registration failed."
  | .login => "Invalid email or password."

/-- The request a form sends. -/
def Form.request : Form → Page → Request
  | .register => registerRequest
  | .login => loginRequest

/-- The submit handler of a form. -/
def submit : Form → Backend → Page → Completion
  | .register => registerSubmit
  | .login => loginSubmit

/-- The `try`/`catch` of a submit handler, for a `try` block that ended as `c`:
the `catch` block runs after a throw. -/
def settle (form : Form) (c : Completion) : Completion :=
  match c with
  | .normal s1 => .normal s1
  | .thrown s1 => displayError form.slot (.str "Network error: Could not reach the server.") s1

/-- The value of `result.k`, `undefined` also where the read itself throws. -/
def readField (result : JVal) (k : String) : Option JVal :=
  match getField result k with
  | some v => v
  | none => none

/-- The body carries a truthy `success`. -/
def successFlag (result : JVal) : Bool :=
  truthy (readField result "success")

/-- A response that is not a success: a status outside 200-299, or a body
without a truthy `success`. -/
def failedResponse : FetchOutcome → Bool
  | .rejected => false
  | .response status none => !isOk status
  | .response status (some result) => !isOk status || !successFlag result

/-- A response whose body does not parse, or parses to `null`. -/
def unusableBody : FetchOutcome → Bool
  | .response _ none => true
  | .response _ (some .null) => true
  | _ => false

/-- The value can be converted to a string (`ToString` does not throw). -/
def convertible (v : Option JVal) : Bool :=
  (toStringOpt v).isSome

/-- The key `currentUser` is present in `localStorage`. -/
def hasSession (s : Page) : Bool :=
  (getItem "currentUser" s.localStorage).isSome

/-- The events the script handles. -/
inductive Op where
  | registerClick : Op
  | loginClick : Op
  | registerSubmit (backend : Backend) : Op
  | loginSubmit (backend : Backend) : Op
  | windowLoad : Op

/-- The page after one event has been handled. -/
def step (op : Op) (s : Page) : Page :=
  match op with
  | .registerClick => registerClick s
  | .loginClick => loginClick s
  | .registerSubmit backend => (registerSubmit backend s).state
  | .loginSubmit backend => (loginSubmit backend s).state
  | .windowLoad => windowLoad s

/-- The page after a sequence of events, handled in order. -/
def run (ops : List Op) (s : Page) : Page :=
  ops.foldl (fun acc op => step op acc) s

/-- A freshly opened login page with empty storage. -/
def freshPage : Page :=
  { classList := ["container"]
    registerErrorMsg := ""
    loginErrorMsg := ""
    registerUsername := "alice"
    registerEmail := "a@x.com"
    registerPassword := "p"
    loginEmail := "a@x.com"
    loginPassword := "p"
    localStorage := []
    storeRefuses := false
    pathname := "/login.html"
    hrefs := []
    console := [] }

/-- A login page whose storage holds `currentUser` with the empty string. -/
def emptySessionPage : Page :=
  { freshPage with localStorage := [("currentUser", "")] }

/-- A freshly opened login page whose store refuses writes. -/
def fullStorePage : Page :=
  { freshPage with storeRefuses := true }

/-- A parsed body `{"toString": null}`: an object that cannot be converted to
a string. -/
def opaqueObject : JVal :=
  .obj [("toString", .null)]

/-- A backend that answers every request with the same outcome. -/
def always (outcome : FetchOutcome) : Backend :=
  fun _ => outcome

/-! ## Basic facts -/

theorem setText_localStorage (el : Slot) (t : String) (s : Page) :
    (el.setText t s).localStorage = s.localStorage := by
  cases el <;> rfl

theorem setText_hrefs (el : Slot) (t : String) (s : Page) :
    (el.setText t s).hrefs = s.hrefs := by
  cases el <;> rfl

theorem setText_text (el : Slot) (t : String) (s : Page) :
    el.text (el.setText t s) = t := by
  cases el <;> rfl

theorem registerRequest_clearError (el : Slot) (s : Page) :
    registerRequest (clearError el s) = registerRequest s := by
  cases el <;> rfl

theorem loginRequest_clearError (el : Slot) (s : Page) :
    loginRequest (clearError el s) = loginRequest s := by
  cases el <;> rfl

/-- Showing a string never throws: the slot takes the string, the console one
more line. -/
theorem displayError_str (el : Slot) (t : String) (s : Page) :
    displayError el (.str t) s =
      .normal { (el.setText t s) with
        console := (el.setText t s).console ++ [ConsoleEntry.error (.str t)] } := by
  simp [displayError, textContentArg, toStringJS]

/-- Whatever `displayError` is given and however it ends, it touches neither
storage nor the navigation log. -/
theorem displayError_frame (el : Slot) (m : JVal) (s : Page) :
    (displayError el m s).state.localStorage = s.localStorage ∧
      (displayError el m s).state.hrefs = s.hrefs := by
  unfold displayError
  cases textContentArg m with
  | none => exact ⟨rfl, rfl⟩
  | some t => exact ⟨setText_localStorage el t s, setText_hrefs el t s⟩

theorem getItem_putItem (k v : String) (l : List (String × String)) :
    getItem k (putItem k v l) = some v := by
  induction l with
  | nil => simp [putItem, getItem]
  | cons p rest ih =>
    obtain ⟨k', v'⟩ := p
    by_cases h : (k' == k) = true
    · simp [putItem, getItem, h]
    · simp [putItem, getItem, h, ih]

theorem stringifyLiteral_ne_empty (ps : List (String × Option JVal)) :
    stringifyLiteral ps ≠ "" := by
  intro h
  have h2 := congrArg String.length h
  simp only [stringifyLiteral, String.length_append] at h2
  have h3 : "\x7b".length = 1 := by decide
  have h4 : "".length = 0 := by decide
  omega

/-- The stored text when both values are absent. -/
theorem stringifyLiteral_absent :
    stringifyLiteral [("username", none), ("isAdmin", none)] = "\x7b\x7d" := by
  decide

/-- The stored text for a string `username` and a boolean `isAdmin`. -/
theorem stringifyLiteral_record (u : String) (b : Bool) :
    stringifyLiteral [("username", some (.str u)), ("isAdmin", some (.bool b))] =
      "\x7b\"username\":" ++ quoteJSON u ++ ",\"isAdmin\":" ++
        (if b then "true" else "false") ++ "\x7d" := by
  have h1 : quoteJSON "username" = "\"username\"" := by decide
  have h2 : quoteJSON "isAdmin" = "\"isAdmin\"" := by decide
  simp only [stringifyLiteral, literalProps, joinWith, stringify, h1, h2, String.append_assoc]
  rfl

theorem classListAdd_mem (c : String) (l : List String) : c ∈ classListAdd c l := by
  unfold classListAdd
  by_cases h : c ∈ l
  · simp [h]
  · simp [h]

theorem classListAdd_idem (c : String) (l : List String) :
    classListAdd c (classListAdd c l) = classListAdd c l := by
  have h : c ∈ classListAdd c l := classListAdd_mem c l
  generalize classListAdd c l = m at h
  simp [classListAdd, h]

theorem classListRemove_not_mem (c : String) (l : List String) :
    c ∉ classListRemove c l := by
  simp [classListRemove]

theorem classListRemove_idem (c : String) (l : List String) :
    classListRemove c (classListRemove c l) = classListRemove c l := by
  simp [classListRemove, List.filter_filter]

/-- After `fetch` has settled the register handler always completes normally:
its `catch` block shows a string, which cannot throw. -/
theorem registerResume_normal (outcome : FetchOutcome) (s : Page) :
    ∃ s', registerResume outcome s = .normal s' := by
  unfold registerResume
  cases registerTry outcome s with
  | normal s1 => exact ⟨s1, rfl⟩
  | thrown s1 => exact ⟨_, displayError_str _ _ s1⟩

/-- After `fetch` has settled the login handler always completes normally. -/
theorem loginResume_normal (outcome : FetchOutcome) (s : Page) :
    ∃ s', loginResume outcome s = .normal s' := by
  unfold loginResume
  cases loginTry outcome s with
  | normal s1 => exact ⟨s1, rfl⟩
  | thrown s1 => exact ⟨_, displayError_str _ _ s1⟩

/-- Neither submit handler lets an exception escape. -/
theorem submit_normal (form : Form) (backend : Backend) (s : Page) :
    ∃ s', submit form backend s = .normal s' := by
  cases form
  · exact registerResume_normal _ _
  · exact loginResume_normal _ _

/-- When the `try` block of the register handler throws without having changed
the page, the handler ends as it does for a rejected `fetch`. -/
theorem registerResume_of_thrown (outcome : FetchOutcome) (s : Page)
    (h : registerTry outcome s = .thrown s) :
    registerResume outcome s = registerResume .rejected s := by
  unfold registerResume
  rw [h]
  rfl

/-- When the `try` block of the login handler throws without having changed
the page, the handler ends as it does for a rejected `fetch`. -/
theorem loginResume_of_thrown (outcome : FetchOutcome) (s : Page)
    (h : loginTry outcome s = .thrown s) :
    loginResume outcome s = loginResume .rejected s := by
  unfold loginResume
  rw [h]
  rfl

theorem registerTry_unusable (outcome : FetchOutcome) (s : Page)
    (h : unusableBody outcome = true) : registerTry outcome s = .thrown s := by
  match outcome, h with
  | .response _ none, _ => rfl
  | .response status (some .null), _ =>
    simp only [registerTry, registerFailure, getField]
    split <;> rfl

theorem loginTry_unusable (outcome : FetchOutcome) (s : Page)
    (h : unusableBody outcome = true) : loginTry outcome s = .thrown s := by
  match outcome, h with
  | .response _ none, _ => rfl
  | .response status (some .null), _ =>
    simp only [loginTry, loginFailure, getField]
    split <;> rfl

/-- The outcome of a submit whose `fetch` rejects. -/
theorem submit_rejected (form : Form) (backend : Backend) (s : Page)
    (h : backend (form.request s) = .rejected) :
    ∃ s', submit form backend s = .normal s' ∧
      form.slot.text s' = "Network error: Could not reach the server." ∧
      s'.localStorage = s.localStorage ∧ s'.hrefs = s.hrefs := by
  cases form
  · have e : submit .register backend s = displayError .registerErrorMsg
        (.str "Network error: Could not reach the server.")
        (clearError .registerErrorMsg s) := by
      simp only [submit, registerSubmit, registerRequest_clearError]
      simp only [Form.request] at h
      rw [h]
      rfl
    rw [e, displayError_str]
    exact ⟨_, rfl, rfl, rfl, rfl⟩
  · have e : submit .login backend s = displayError .loginErrorMsg
        (.str "Network error: Could not reach the server.")
        (clearError .loginErrorMsg s) := by
      simp only [submit, loginSubmit, loginRequest_clearError]
      simp only [Form.request] at h
      rw [h]
      rfl
    rw [e, displayError_str]
    exact ⟨_, rfl, rfl, rfl, rfl⟩

/-- A submit whose response body is unusable ends exactly as one whose `fetch`
rejects. -/
theorem submit_unusable (form : Form) (backend : Backend) (s : Page)
    (h : unusableBody (backend (form.request s)) = true) :
    submit form backend s = submit form (always .rejected) s := by
  cases form
  · simp only [submit, registerSubmit, registerRequest_clearError, always]
    simp only [Form.request] at h
    exact registerResume_of_thrown _ _ (registerTry_unusable _ _ h)
  · simp only [submit, loginSubmit, loginRequest_clearError, always]
    simp only [Form.request] at h
    exact loginResume_of_thrown _ _ (loginTry_unusable _ _ h)

/-! ## The properties -/

/-- C7: the register toggle leaves the container `active` and the login error
slot empty, the login toggle leaves the container not `active` and the
register error slot empty; each leaves the other error slot, storage and the
navigation log as they were, and each is idempotent. -/
theorem toggle_views (s : Page) :
    ("active" ∈ (registerClick s).classList ∧ (registerClick s).loginErrorMsg = "" ∧
      (registerClick s).registerErrorMsg = s.registerErrorMsg ∧
      (registerClick s).localStorage = s.localStorage ∧
      (registerClick s).hrefs = s.hrefs ∧
      registerClick (registerClick s) = registerClick s) ∧
    ("active" ∉ (loginClick s).classList ∧ (loginClick s).registerErrorMsg = "" ∧
      (loginClick s).loginErrorMsg = s.loginErrorMsg ∧
      (loginClick s).localStorage = s.localStorage ∧
      (loginClick s).hrefs = s.hrefs ∧
      loginClick (loginClick s) = loginClick s) := by
  refine ⟨⟨classListAdd_mem _ _, rfl, rfl, rfl, rfl, ?_⟩,
    ⟨classListRemove_not_mem _ _, rfl, rfl, rfl, rfl, ?_⟩⟩
  · simp [registerClick, clearError, Slot.setText, classListAdd_idem]
  · simp [loginClick, clearError, Slot.setText, classListRemove_idem]

/-- C6: when `fetch` rejects, either submit handler completes with its own
error slot holding the network-error text, storage unchanged and nothing
appended to the navigation log. -/
theorem transport_failure (form : Form) (backend : Backend) (s : Page)
    (h : backend (form.request s) = .rejected) :
    ∃ s', submit form backend s = .normal s' ∧
      form.slot.text s' = "Network error: Could not reach the server." ∧
      s'.localStorage = s.localStorage ∧ s'.hrefs = s.hrefs :=
  submit_rejected form backend s h

theorem transport_failure_witness :
    always .rejected (Form.login.request freshPage) = .rejected ∧
    ∃ s', submit .login (always .rejected) freshPage = .normal s' ∧
      Form.login.slot.text s' = "Network error: Could not reach the server." ∧
      s'.localStorage = freshPage.localStorage ∧ s'.hrefs = freshPage.hrefs :=
  ⟨rfl, transport_failure .login (always .rejected) freshPage rfl⟩

/-- C10: for every outcome of the request either submit handler completes
normally; when the body does not parse or parses to `null` the final page is
the one a rejected `fetch` gives (network-error text in the form's slot,
storage and navigation log untouched); and a submit on the resulting page
completes normally again. -/
theorem no_fatal_error (form : Form) (backend : Backend) (s : Page) :
    ∃ s', submit form backend s = .normal s' ∧
      (unusableBody (backend (form.request s)) = true →
        submit form backend s = submit form (always .rejected) s ∧
        form.slot.text s' = "Network error: Could not reach the server." ∧
        s'.localStorage = s.localStorage ∧ s'.hrefs = s.hrefs) ∧
      ∀ (form2 : Form) (backend2 : Backend), ∃ s'', submit form2 backend2 s' = .normal s'' := by
  obtain ⟨s', hs'⟩ := submit_normal form backend s
  refine ⟨s', hs', ?_, fun form2 backend2 => submit_normal form2 backend2 s'⟩
  intro h
  have he := submit_unusable form backend s h
  obtain ⟨t, ht, h1, h2, h3⟩ := submit_rejected form (always .rejected) s rfl
  have : s' = t := by
    have := hs'.symm.trans (he.trans ht)
    exact Completion.normal.inj this
  subst this
  exact ⟨he, h1, h2, h3⟩

theorem no_fatal_error_witness :
    unusableBody (always (.response 200 (some .null)) (Form.login.request freshPage)) = true ∧
    ∃ s', submit .login (always (.response 200 (some .null))) freshPage = .normal s' ∧
      (unusableBody (always (.response 200 (some .null)) (Form.login.request freshPage)) = true →
        submit .login (always (.response 200 (some .null))) freshPage =
          submit .login (always .rejected) freshPage ∧
        Form.login.slot.text s' = "Network error: Could not reach the server." ∧
        s'.localStorage = freshPage.localStorage ∧ s'.hrefs = freshPage.hrefs) ∧
      ∀ (form2 : Form) (backend2 : Backend), ∃ s'', submit form2 backend2 s' = .normal s'' :=
  ⟨rfl, no_fatal_error .login (always (.response 200 (some .null))) freshPage⟩

theorem getField_of_ne_null (result : JVal) (k : String) (h : result ≠ .null) :
    getField result k = some (readField result k) := by
  cases result <;> simp_all [getField, readField]

theorem readField_null (k : String) : readField .null k = none := rfl

theorem settle_normal (form : Form) (c : Completion) : ∃ s', settle form c = .normal s' := by
  cases c with
  | normal s1 => exact ⟨s1, rfl⟩
  | thrown s1 => exact ⟨_, displayError_str _ _ s1⟩

theorem settle_frame (form : Form) (c : Completion) :
    (settle form c).state.localStorage = c.state.localStorage ∧
      (settle form c).state.hrefs = c.state.hrefs := by
  cases c with
  | normal s1 => exact ⟨rfl, rfl⟩
  | thrown s1 =>
    exact displayError_frame form.slot (.str "Network error: Could not reach the server.") s1

theorem registerResume_eq_settle (outcome : FetchOutcome) (s : Page) :
    registerResume outcome s = settle .register (registerTry outcome s) := by
  unfold registerResume settle
  cases registerTry outcome s <;> rfl

theorem loginResume_eq_settle (outcome : FetchOutcome) (s : Page) :
    loginResume outcome s = settle .login (loginTry outcome s) := by
  unfold loginResume settle
  cases loginTry outcome s <;> rfl

/-- The `else` branch of either handler on a body that is not `null`: the
message, or the fallback of the form, goes to `displayError`. -/
theorem failure_branch (form : Form) (backend : Backend) (s : Page) (status : Nat)
    (result : JVal) (hresp : backend (form.request s) = .response status (some result))
    (hnn : result ≠ .null) (hfail : isOk status = false ∨ successFlag result = false) :
    submit form backend s = settle form (displayError form.slot
      (orElse (readField result "message") form.fallback) (clearError form.slot s)) := by
  have hs : isOk status = true → truthy (readField result "success") = false := by
    intro hok
    rcases hfail with h | h
    · rw [hok] at h; cases h
    · exact h
  cases form
  · simp only [Form.request] at hresp
    simp only [submit, registerSubmit, registerRequest_clearError, hresp,
      registerResume_eq_settle, registerTry, registerFailure,
      getField_of_ne_null result _ hnn, Form.slot, Form.fallback]
    by_cases hok : isOk status = true
    · simp [hok, hs hok]
    · simp [hok]
  · simp only [Form.request] at hresp
    simp only [submit, loginSubmit, loginRequest_clearError, hresp,
      loginResume_eq_settle, loginTry, loginFailure,
      getField_of_ne_null result _ hnn, Form.slot, Form.fallback]
    by_cases hok : isOk status = true
    · simp [hok, hs hok]
    · simp [hok]

theorem registerTry_frame (outcome : FetchOutcome) (s : Page) :
    (registerTry outcome s).state.localStorage = s.localStorage ∧
      (registerTry outcome s).state.hrefs = s.hrefs := by
  have hf : ∀ result, (registerFailure result s).state.localStorage = s.localStorage ∧
      (registerFailure result s).state.hrefs = s.hrefs := by
    intro result
    unfold registerFailure
    cases getField result "message" with
    | none => exact ⟨rfl, rfl⟩
    | some m => exact displayError_frame _ _ s
  have hsucc : (registerSuccess s).state.localStorage = s.localStorage ∧
      (registerSuccess s).state.hrefs = s.hrefs := by
    unfold registerSuccess
    rw [displayError_str]
    exact ⟨rfl, rfl⟩
  unfold registerTry
  split
  · exact ⟨rfl, rfl⟩
  · exact ⟨rfl, rfl⟩
  · split
    · split
      · exact ⟨rfl, rfl⟩
      · split
        · exact hsucc
        · exact hf _
    · exact hf _

theorem loginFailure_frame (result : JVal) (s : Page) :
    (loginFailure result s).state.localStorage = s.localStorage ∧
      (loginFailure result s).state.hrefs = s.hrefs := by
  unfold loginFailure
  cases getField result "message" with
  | none => exact ⟨rfl, rfl⟩
  | some m => exact displayError_frame _ _ s

theorem loginTry_failed_frame (outcome : FetchOutcome) (s : Page)
    (h : failedResponse outcome = true) :
    (loginTry outcome s).state.localStorage = s.localStorage ∧
      (loginTry outcome s).state.hrefs = s.hrefs := by
  match outcome, h with
  | .response _ none, _ => exact ⟨rfl, rfl⟩
  | .response status (some result), h =>
    unfold loginTry
    by_cases hok : isOk status = true
    · simp only [hok, if_true]
      have hsf : successFlag result = false := by
        simpa [failedResponse, hok] using h
      cases hg : getField result "success" with
      | none => exact ⟨rfl, rfl⟩
      | some flag =>
        have : truthy flag = false := by
          simpa [successFlag, readField, hg] using hsf
        simp only [this]
        exact loginFailure_frame result s
    · simp only [hok]
      exact loginFailure_frame result s

theorem clearError_frame (el : Slot) (s : Page) :
    (clearError el s).localStorage = s.localStorage ∧ (clearError el s).hrefs = s.hrefs :=
  ⟨setText_localStorage el "" s, setText_hrefs el "" s⟩

/-- C2: after a response with a status outside 200-299 or without a truthy
`success`, either submit handler leaves storage exactly as it was and appends
nothing to the navigation log. -/
theorem failed_response_frame (form : Form) (backend : Backend) (s : Page)
    (h : failedResponse (backend (form.request s)) = true) :
    (submit form backend s).state.localStorage = s.localStorage ∧
      (submit form backend s).state.hrefs = s.hrefs := by
  cases form
  · simp only [submit, registerSubmit, registerRequest_clearError, registerResume_eq_settle]
    have h1 := settle_frame .register
      (registerTry (backend (registerRequest s)) (clearError .registerErrorMsg s))
    have h2 := registerTry_frame (backend (registerRequest s)) (clearError .registerErrorMsg s)
    have h3 := clearError_frame .registerErrorMsg s
    exact ⟨h1.1.trans (h2.1.trans h3.1), h1.2.trans (h2.2.trans h3.2)⟩
  · simp only [submit, loginSubmit, loginRequest_clearError, loginResume_eq_settle]
    simp only [Form.request] at h
    have h1 := settle_frame .login
      (loginTry (backend (loginRequest s)) (clearError .loginErrorMsg s))
    have h2 := loginTry_failed_frame (backend (loginRequest s)) (clearError .loginErrorMsg s) h
    have h3 := clearError_frame .loginErrorMsg s
    exact ⟨h1.1.trans (h2.1.trans h3.1), h1.2.trans (h2.2.trans h3.2)⟩

theorem failed_response_frame_witness :
    failedResponse (always (.response 401 (some (.obj [("success", .bool false)])))
      (Form.login.request freshPage)) = true ∧
    (submit .login (always (.response 401 (some (.obj [("success", .bool false)]))))
      freshPage).state.localStorage = freshPage.localStorage ∧
    (submit .login (always (.response 401 (some (.obj [("success", .bool false)]))))
      freshPage).state.hrefs = freshPage.hrefs :=
  ⟨by decide, failed_response_frame .login
    (always (.response 401 (some (.obj [("success", .bool false)])))) freshPage (by decide)⟩

/-- C4: a register submit answered with an OK status and a body with a truthy
`success` completes with the register error slot holding the confirmation
text, the container not `active` and the login error slot empty. -/
theorem register_success (backend : Backend) (s : Page) (status : Nat) (result : JVal)
    (hresp : backend (registerRequest s) = .response status (some result))
    (hok : isOk status = true) (hsucc : successFlag result = true) :
    ∃ s', registerSubmit backend s = .normal s' ∧
      s'.registerErrorMsg = "Registration successful! Please log in." ∧
      "active" ∉ s'.classList ∧ s'.loginErrorMsg = "" := by
  have hnn : result ≠ .null := by
    rintro rfl
    simp [successFlag, readField_null, truthy] at hsucc
  have e : registerSubmit backend s = registerSuccess (clearError .registerErrorMsg s) := by
    simp only [registerSubmit, registerRequest_clearError, hresp, registerResume_eq_settle,
      registerTry, hok, if_true, getField_of_ne_null result _ hnn]
    have : truthy (readField result "success") = true := hsucc
    simp only [this, if_true]
    unfold registerSuccess
    rw [displayError_str]
    rfl
  rw [e]
  unfold registerSuccess
  rw [displayError_str]
  exact ⟨_, rfl, rfl, classListRemove_not_mem _ _, rfl⟩

theorem register_success_witness :
    always (.response 200 (some (.obj [("success", .bool true)]))) (registerRequest freshPage)
      = .response 200 (some (.obj [("success", .bool true)])) ∧
    isOk 200 = true ∧ successFlag (.obj [("success", .bool true)]) = true ∧
    ∃ s', registerSubmit (always (.response 200 (some (.obj [("success", .bool true)]))))
        freshPage = .normal s' ∧
      s'.registerErrorMsg = "Registration successful! Please log in." ∧
      "active" ∉ s'.classList ∧ s'.loginErrorMsg = "" :=
  ⟨rfl, by decide, by decide,
    register_success (always (.response 200 (some (.obj [("success", .bool true)]))))
      freshPage 200 (.obj [("success", .bool true)]) rfl (by decide) (by decide)⟩

theorem displayError_text (el : Slot) (m : JVal) (s : Page) (t : String)
    (h : textContentArg m = some t) :
    ∃ s', displayError el m s = .normal s' ∧ el.text s' = t := by
  unfold displayError
  rw [h]
  exact ⟨_, rfl, by cases el <;> rfl⟩

theorem orElse_of_falsy (m : Option JVal) (b : String) (h : truthy m = false) :
    orElse m b = .str b := by
  cases m with
  | none => rfl
  | some v => simp [orElse, h]

theorem orElse_of_truthy (v : JVal) (b : String) (h : truthy (some v) = true) :
    orElse (some v) b = v := by
  simp [orElse, h]

theorem textContentArg_of_truthy (v : JVal) (h : truthy (some v) = true) :
    textContentArg v = toStringJS v := by
  cases v <;> first | rfl | simp [truthy] at h

/-- C5 as the code has it: after a failed response whose body parses to a
value other than `null`, the submit handler completes with the form's error
slot holding the fallback of the form when the message is falsy (absent,
`null`, `false`, zero, the empty string), and the text of the message when it
is truthy and can be converted to text (the message itself when it is a
non-empty string); storage and the navigation log are untouched. -/
theorem failed_response_message (form : Form) (backend : Backend) (s : Page) (status : Nat)
    (result : JVal) (hresp : backend (form.request s) = .response status (some result))
    (hnn : result ≠ .null) (hfail : isOk status = false ∨ successFlag result = false) :
    ∃ s', submit form backend s = .normal s' ∧
      (truthy (readField result "message") = false → form.slot.text s' = form.fallback) ∧
      (∀ t, readField result "message" = some (.str t) → t ≠ "" → form.slot.text s' = t) ∧
      (∀ v t, readField result "message" = some v → truthy (some v) = true →
        toStringJS v = some t → form.slot.text s' = t) ∧
      s'.localStorage = s.localStorage ∧ s'.hrefs = s.hrefs := by
  have e := failure_branch form backend s status result hresp hnn hfail
  obtain ⟨s', hs'⟩ := settle_normal form (displayError form.slot
      (orElse (readField result "message") form.fallback) (clearError form.slot s))
  have hfr := settle_frame form (displayError form.slot
      (orElse (readField result "message") form.fallback) (clearError form.slot s))
  have hd := displayError_frame form.slot
      (orElse (readField result "message") form.fallback) (clearError form.slot s)
  have hc := clearError_frame form.slot s
  have key : ∀ v t, orElse (readField result "message") form.fallback = v →
      textContentArg v = some t → form.slot.text s' = t := by
    intro v t hv ht
    obtain ⟨s1, h1, h2⟩ := displayError_text form.slot v (clearError form.slot s) t ht
    rw [hv, h1] at hs'
    have : s1 = s' := Completion.normal.inj hs'
    rw [← this]
    exact h2
  have key2 : ∀ v t, readField result "message" = some v → truthy (some v) = true →
      toStringJS v = some t → form.slot.text s' = t := by
    intro v t hm htr hts
    refine key v t ?_ ?_
    · rw [hm]; exact orElse_of_truthy v _ htr
    · rw [textContentArg_of_truthy v htr]; exact hts
  rw [hs'] at hfr
  refine ⟨s', e.trans hs', ?_, ?_, key2, ?_, ?_⟩
  · intro hf
    exact key (.str form.fallback) form.fallback (orElse_of_falsy _ _ hf) rfl
  · intro t hm ht
    exact key2 (.str t) t hm (by simpa [truthy] using ht) rfl
  · exact hfr.1.trans (hd.1.trans hc.1)
  · exact hfr.2.trans (hd.2.trans hc.2)

theorem failed_response_message_witness :
    ∃ s', submit .login (always (.response 401 (some (.obj [("success", .bool false),
        ("message", .str "Invalid email or password.")])))) freshPage = .normal s' ∧
      (truthy (readField (.obj [("success", .bool false),
        ("message", .str "Invalid email or password.")]) "message") = false →
        Form.login.slot.text s' = Form.login.fallback) ∧
      (∀ t, readField (.obj [("success", .bool false),
        ("message", .str "Invalid email or password.")]) "message" = some (.str t) →
        t ≠ "" → Form.login.slot.text s' = t) ∧
      (∀ v t, readField (.obj [("success", .bool false),
        ("message", .str "Invalid email or password.")]) "message" = some v →
        truthy (some v) = true → toStringJS v = some t → Form.login.slot.text s' = t) ∧
      s'.localStorage = freshPage.localStorage ∧ s'.hrefs = freshPage.hrefs :=
  failed_response_message .login _ freshPage 401 _ rfl (by simp) (Or.inl (by decide))

/-- C5 as stated fails: a response with status 500 whose body does not parse
is a failed response that carries no message, and the login error slot ends
up with the network-error text, not with the login fallback. -/
theorem failed_response_message_counterexample :
    failedResponse (always (.response 500 none) (Form.login.request freshPage)) = true ∧
    Form.login.slot.text (submit .login (always (.response 500 none)) freshPage).state
      = "Network error: Could not reach the server." ∧
    Form.login.slot.text (submit .login (always (.response 500 none)) freshPage).state
      ≠ Form.login.fallback := by
  decide

theorem completeLogin_of_convertible (u a : Option JVal) (s : Page)
    (hu : convertible u = true) (ha : convertible a = true)
    (hq : s.storeRefuses = false) :
    ∃ s', completeLogin u a s = .normal s' ∧
      s'.localStorage = putItem "currentUser"
        (stringifyLiteral [("username", u), ("isAdmin", a)]) s.localStorage ∧
      s'.hrefs = s.hrefs ++ ["chatindex.html"] ∧ s'.pathname = s.pathname := by
  unfold convertible at hu ha
  obtain ⟨su, hsu⟩ := Option.isSome_iff_exists.mp hu
  obtain ⟨sa, hsa⟩ := Option.isSome_iff_exists.mp ha
  unfold completeLogin
  rw [hsu, hsa]
  simp only [setItem, hq, Completion.andThen]
  exact ⟨_, rfl, rfl, rfl, rfl⟩

/-- C1 as the code has it: after a login response with an OK status and a
body with a truthy `success`, whose `username` and `isAdmin` (absent ones
included) can be converted to a string for the log line, on a page whose store
accepts the write, the login handler completes with `currentUser` holding
`JSON.stringify` of the record of the two values and with exactly one
assignment of `chatindex.html` appended to the navigation log. -/
theorem login_success (backend : Backend) (s : Page) (status : Nat) (result : JVal)
    (hresp : backend (loginRequest s) = .response status (some result))
    (hok : isOk status = true) (hsucc : successFlag result = true)
    (hu : convertible (readField result "username") = true)
    (ha : convertible (readField result "isAdmin") = true)
    (hq : s.storeRefuses = false) :
    ∃ s', loginSubmit backend s = .normal s' ∧
      getItem "currentUser" s'.localStorage = some (stringifyLiteral
        [("username", readField result "username"), ("isAdmin", readField result "isAdmin")]) ∧
      s'.hrefs = s.hrefs ++ ["chatindex.html"] := by
  have hnn : result ≠ .null := by
    rintro rfl
    simp [successFlag, readField_null, truthy] at hsucc
  obtain ⟨s', h1, h2, h3, _⟩ :=
    completeLogin_of_convertible _ _ (clearError .loginErrorMsg s) hu ha hq
  have e : loginSubmit backend s = .normal s' := by
    simp only [loginSubmit, loginRequest_clearError, hresp, loginResume_eq_settle,
      loginTry, hok, if_true, getField_of_ne_null result _ hnn, loginSuccess]
    have : truthy (readField result "success") = true := hsucc
    simp only [this, if_true, h1]
    rfl
  refine ⟨s', e, ?_, ?_⟩
  · rw [h2]; exact getItem_putItem _ _ _
  · rw [h3, (clearError_frame .loginErrorMsg s).2]

theorem login_success_witness :
    freshPage.storeRefuses = false ∧
    ∃ s', loginSubmit (always (.response 200 (some (.obj [("success", .bool true),
        ("username", .str "alice"), ("isAdmin", .bool false)])))) freshPage = .normal s' ∧
      getItem "currentUser" s'.localStorage = some (stringifyLiteral
        [("username", readField (.obj [("success", .bool true),
          ("username", .str "alice"), ("isAdmin", .bool false)]) "username"),
         ("isAdmin", readField (.obj [("success", .bool true),
          ("username", .str "alice"), ("isAdmin", .bool false)]) "isAdmin")]) ∧
      s'.hrefs = freshPage.hrefs ++ ["chatindex.html"] :=
  ⟨rfl, login_success _ freshPage 200 _ rfl (by decide) (by decide) (by decide) (by decide) rfl⟩

/-- C1 as stated fails, on two inputs.  The response has an OK status and
`success: true` in both.  On a page whose store refuses writes, with the
username `alice`, `localStorage.setItem` throws, and the handler ends in its
`catch` block: the login error slot shows the network-error text, nothing is
stored and there is no navigation.  On a page whose store accepts writes, with
the username `{"toString": null}`, the log line of `completeLogin` throws
while converting it, with the same ending. -/
theorem login_success_counterexample :
    isOk 200 = true ∧
    (successFlag (.obj [("success", .bool true), ("username", .str "alice"),
        ("isAdmin", .bool false)]) = true ∧
      (loginSubmit (always (.response 200 (some (.obj [("success", .bool true),
        ("username", .str "alice"), ("isAdmin", .bool false)])))) fullStorePage).state.loginErrorMsg
        = "Network error: Could not reach the server." ∧
      getItem "currentUser" (loginSubmit (always (.response 200 (some (.obj [("success", .bool true),
        ("username", .str "alice"), ("isAdmin", .bool false)])))) fullStorePage).state.localStorage
        = none ∧
      (loginSubmit (always (.response 200 (some (.obj [("success", .bool true),
        ("username", .str "alice"), ("isAdmin", .bool false)])))) fullStorePage).state.hrefs
        = []) ∧
    (successFlag (.obj [("success", .bool true), ("username", opaqueObject)]) = true ∧
      getItem "currentUser" (loginSubmit (always (.response 200 (some
        (.obj [("success", .bool true), ("username", opaqueObject)])))) freshPage).state.localStorage
        = none ∧
      (loginSubmit (always (.response 200 (some
        (.obj [("success", .bool true), ("username", opaqueObject)])))) freshPage).state.hrefs
        = []) := by
  decide

theorem windowLoad_localStorage (s : Page) : (windowLoad s).localStorage = s.localStorage := by
  simp only [windowLoad]
  split <;> rfl

theorem windowLoad_of_session (s : Page) (v : String)
    (hv : getItem "currentUser" s.localStorage = some v) (hne : v ≠ "")
    (hp : endsWith s.pathname "login.html" = true) :
    (windowLoad s).hrefs = s.hrefs ++ ["chatindex.html"] := by
  simp [windowLoad, hv, hp, truthy, hne]

/-- C3 as the code has it: the load-time check appends a navigation to
`chatindex.html` exactly when `currentUser` holds a non-empty string and the
path ends in `login.html` (no other validation of the stored value); in every
other case it leaves the page as it is; it never changes storage. -/
theorem load_check (s : Page) :
    ((windowLoad s).hrefs = s.hrefs ++ ["chatindex.html"] ↔
      ((∃ v, getItem "currentUser" s.localStorage = some v ∧ v ≠ "") ∧
        endsWith s.pathname "login.html" = true)) ∧
    (¬ ((∃ v, getItem "currentUser" s.localStorage = some v ∧ v ≠ "") ∧
        endsWith s.pathname "login.html" = true) → windowLoad s = s) ∧
    (windowLoad s).localStorage = s.localStorage := by
  refine ⟨?_, ?_, windowLoad_localStorage s⟩
  · constructor
    · intro h
      by_contra hc
      have hs : windowLoad s = s := by
        unfold windowLoad
        cases hg : getItem "currentUser" s.localStorage with
        | none => simp [truthy]
        | some v =>
          by_cases hv : v = ""
          · simp [truthy, hv]
          · by_cases hp : endsWith s.pathname "login.html" = true
            · exact absurd ⟨⟨v, hg, hv⟩, hp⟩ hc
            · simp [hp]
      rw [hs] at h
      have := congrArg List.length h
      simp at this
    · rintro ⟨⟨v, hv, hne⟩, hp⟩
      exact windowLoad_of_session s v hv hne hp
  · intro hc
    unfold windowLoad
    cases hg : getItem "currentUser" s.localStorage with
    | none => simp [truthy]
    | some v =>
      by_cases hv : v = ""
      · simp [truthy, hv]
      · by_cases hp : endsWith s.pathname "login.html" = true
        · exact absurd ⟨⟨v, hg, hv⟩, hp⟩ hc
        · simp [hp]

/-- C3 as stated fails: with `currentUser` present but holding the empty
string, on a path ending in `login.html`, the check does not navigate. -/
theorem load_check_counterexample :
    (getItem "currentUser" emptySessionPage.localStorage).isSome = true ∧
    endsWith emptySessionPage.pathname "login.html" = true ∧
    (windowLoad emptySessionPage).hrefs = emptySessionPage.hrefs := by
  decide

theorem getItem_putItem_isSome (k v : String) (l : List (String × String)) :
    (getItem k (putItem k v l)).isSome = true := by
  rw [getItem_putItem]; rfl

theorem completeLogin_session (u a : Option JVal) (s : Page)
    (h : hasSession s = true) : hasSession (completeLogin u a s).state = true := by
  unfold completeLogin
  cases toStringOpt u with
  | none => exact h
  | some su =>
    cases toStringOpt a with
    | none => exact h
    | some sa =>
      simp only [setItem]
      cases s.storeRefuses with
      | true => exact h
      | false => exact getItem_putItem_isSome _ _ _

theorem completeLogin_normal_session (u a : Option JVal) (s0 s : Page)
    (h : completeLogin u a s0 = .normal s) : hasSession s = true := by
  unfold completeLogin at h
  cases hu : toStringOpt u with
  | none => simp [hu] at h
  | some su =>
    cases ha : toStringOpt a with
    | none => simp [hu, ha] at h
    | some sa =>
      simp only [hu, ha, setItem] at h
      cases hq : s0.storeRefuses with
      | true => simp [hq, Completion.andThen] at h
      | false =>
        simp only [hq, Completion.andThen] at h
        have := Completion.normal.inj h
        rw [← this]
        exact getItem_putItem_isSome _ _ _

theorem hasSession_congr (s t : Page) (h : t.localStorage = s.localStorage)
    (hs : hasSession s = true) : hasSession t = true := by
  unfold hasSession at *
  rw [h]; exact hs

theorem loginTry_session (outcome : FetchOutcome) (s : Page) (h : hasSession s = true) :
    hasSession (loginTry outcome s).state = true := by
  have hf : ∀ result, hasSession (loginFailure result s).state = true := fun result =>
    hasSession_congr s _ (loginFailure_frame result s).1 h
  unfold loginTry
  split
  · exact h
  · exact h
  · split
    · split
      · exact h
      · split
        · unfold loginSuccess
          split
          · exact h
          · split
            · exact h
            · exact completeLogin_session _ _ s h
        · exact hf _
    · exact hf _

theorem step_session (op : Op) (s : Page) (h : hasSession s = true) :
    hasSession (step op s) = true := by
  cases op with
  | registerClick => exact h
  | loginClick => exact h
  | registerSubmit backend =>
    refine hasSession_congr s _ ?_ h
    simp only [step, registerSubmit, registerResume_eq_settle]
    exact (settle_frame _ _).1.trans ((registerTry_frame _ _).1.trans (clearError_frame _ s).1)
  | loginSubmit backend =>
    simp only [step, loginSubmit, loginResume_eq_settle]
    have h1 : hasSession (clearError .loginErrorMsg s) = true :=
      hasSession_congr s _ (clearError_frame _ s).1 h
    have h2 := loginTry_session (backend (loginRequest (clearError .loginErrorMsg s))) _ h1
    exact hasSession_congr _ _ (settle_frame _ _).1 h2
  | windowLoad => exact hasSession_congr s _ (windowLoad_localStorage s) h

theorem run_session (ops : List Op) (s : Page) (h : hasSession s = true) :
    hasSession (run ops s) = true := by
  induction ops generalizing s with
  | nil => exact h
  | cons op rest ih => exact ih (step op s) (step_session op s h)

/-- C8: no event removes the session record.  From a page that holds
`currentUser`, or that a completed `completeLogin` has just produced, every
sequence of events (toggle clicks, register and login submits under any
backend, load-time checks) ends on a page that still holds `currentUser`; a
single event is the sequence of length one. -/
theorem session_persists (s : Page) (ops : List Op)
    (h : hasSession s = true ∨ ∃ u a s0, completeLogin u a s0 = .normal s) :
    hasSession (run ops s) = true := by
  rcases h with h | ⟨u, a, s0, h⟩
  · exact run_session ops s h
  · exact run_session ops s (completeLogin_normal_session u a s0 s h)

theorem session_persists_witness :
    hasSession emptySessionPage = true ∧
    hasSession (run [.loginClick, .loginSubmit (always .rejected), .windowLoad,
      .registerSubmit (always (.response 500 none)), .registerClick] emptySessionPage) = true :=
  ⟨by decide, session_persists emptySessionPage _ (Or.inl (by decide))⟩

/-- C9 as the code has it: when `username` and `isAdmin` (absent ones
included) can be converted to a string for the log line and the store accepts
the write, `completeLogin` completes, and a load-time check on the resulting
page, on a path ending in `login.html`, navigates to `chatindex.html`: what it
wrote under `currentUser` is never the empty string. -/
theorem saved_session_recognised (u a : Option JVal) (s : Page)
    (hu : convertible u = true) (ha : convertible a = true)
    (hq : s.storeRefuses = false)
    (hp : endsWith s.pathname "login.html" = true) :
    ∃ s', completeLogin u a s = .normal s' ∧
      (windowLoad s').hrefs = s'.hrefs ++ ["chatindex.html"] := by
  obtain ⟨s', h1, h2, _, h4⟩ := completeLogin_of_convertible u a s hu ha hq
  have hg : getItem "currentUser" s'.localStorage =
      some (stringifyLiteral [("username", u), ("isAdmin", a)]) := by
    rw [h2]
    exact getItem_putItem _ _ _
  have hp' : endsWith s'.pathname "login.html" = true := by
    rw [h4]; exact hp
  exact ⟨s', h1, windowLoad_of_session s' _ hg (stringifyLiteral_ne_empty _) hp'⟩

theorem saved_session_recognised_witness :
    convertible none = true ∧ freshPage.storeRefuses = false ∧
    endsWith freshPage.pathname "login.html" = true ∧
    ∃ s', completeLogin none none freshPage = .normal s' ∧
      (windowLoad s').hrefs = s'.hrefs ++ ["chatindex.html"] :=
  ⟨by decide, rfl, by decide,
    saved_session_recognised none none freshPage (by decide) (by decide) rfl (by decide)⟩

/-- C9 as stated fails, on two inputs.  On a page whose store refuses writes,
`completeLogin` called with the username `alice` throws at
`localStorage.setItem` and writes nothing; on a page whose store accepts
writes, called with the username `{"toString": null}`, it throws at its log
line before the write.  In both the load-time check that follows on the login
page finds no record and does not navigate. -/
theorem saved_session_recognised_counterexample :
    (endsWith (completeLogin (some (.str "alice")) (some (.bool false))
        fullStorePage).state.pathname "login.html" = true ∧
      (windowLoad (completeLogin (some (.str "alice")) (some (.bool false))
        fullStorePage).state).hrefs = []) ∧
    (endsWith (completeLogin (some opaqueObject) none freshPage).state.pathname "login.html"
        = true ∧
      (windowLoad (completeLogin (some opaqueObject) none freshPage).state).hrefs = []) := by
  decide

end LoginJs
